import Mathlib

/-!
Verification development for the Flownix backend profiling code
(src/backend/app/api/routes.py).  The dataset upload and analyze
endpoints are shallowly embedded: a dataframe is a list of typed
columns, machine floats are modelled by exact rationals, pandas NaN
results are modelled by `Option`, and the two endpoints become state
passing functions over an explicit server state (metadata registry and
temp-file store).
-/

set_option maxHeartbeats 1000000

namespace Flownix

/-! ## Numeric helpers -/

/-- Round half to even on rationals: semantics of Python `round(x, n)` and
numpy `.round(n)` evaluated on exact values. -/
def rhe (q : ℚ) : ℤ :=
  let f : ℤ := ⌊q⌋
  let r : ℚ := q - (f : ℚ)
  if r < 1/2 then f
  else if 1/2 < r then f + 1
  else if f % 2 = 0 then f else f + 1

/-- Python `round(x, 2)`. -/
def round2 (q : ℚ) : ℚ := ((rhe (q * 100) : ℚ)) / 100

/-- Integer sign of a rational. -/
def sgnQ (q : ℚ) : ℤ :=
  if 0 < q then 1 else if q < 0 then -1 else 0

/-- Insertion step for an ascending sort on rationals. -/
def insertSorted (x : ℚ) : List ℚ → List ℚ
  | [] => [x]
  | y :: ys => if x ≤ y then x :: y :: ys else y :: insertSorted x ys

/-- Ascending sort of a list of rationals (order of computation in
numpy percentile; ties are between equal values, so tie order is moot). -/
def sortQ (xs : List ℚ) : List ℚ := xs.foldr insertSorted []

/-- Arithmetic mean as a total function; only used under nonempty guards. -/
def meanOf (xs : List ℚ) : ℚ := xs.sum / (xs.length : ℚ)

/-- Sum of k-th powers of deviations from the mean: the quantities
`m2 = adjusted2.sum()`, `m3`, `m4` of pandas nanskew / nankurt. -/
def centralMoment (k : ℕ) (xs : List ℚ) : ℚ :=
  (xs.map (fun x => (x - meanOf xs) ^ k)).sum

/-! ## Data model

A cell of a loaded dataframe.  `null` stands for NaN/None/NaT (anything
pandas `isnull` reports); numeric values are exact rationals; datetime
and timedelta payloads are integer nanosecond ticks. -/

inductive Cell : Type
  | null : Cell
  | num : ℚ → Cell
  | str : String → Cell
  | boolean : Bool → Cell
  | time : ℤ → Cell
deriving DecidableEq

/-- Pandas dtypes relevant to the routes code.  `select_dtypes` buckets
depend only on the dtype, so it is carried per column. -/
inductive Dtype : Type
  | int64 | float64 | int32 | float32
  | object | category
  | datetime64 | datetimeTz
  | bool
  | timedelta64
deriving DecidableEq

structure Column : Type where
  name : String
  dtype : Dtype
  values : List Cell
deriving DecidableEq

/-- A loaded dataframe: ordered columns plus the row count `len(df)`.
Well-formed frames have `values.length = nrows` in every column. -/
structure DataFrame : Type where
  cols : List Column
  nrows : ℕ
deriving DecidableEq

def WellFormed (df : DataFrame) : Prop :=
  ∀ c ∈ df.cols, c.values.length = df.nrows

/-! ## Type classifier (routes.py lines 196-199)

`select_dtypes(include=['number'])` matches subtypes of np.number
(int64/float64/int32/float32 here; bool is excluded);
`['object', 'category']` matches object and categorical dtypes;
`['datetime', 'datetime64']` matches np.datetime64 (tz-aware dtypes
need 'datetimetz' and are NOT matched); `['bool']` matches bool.
A timedelta64 column matches none of the four selectors. -/

def isNumberDtype : Dtype → Bool
  | .int64 | .float64 | .int32 | .float32 => true
  | _ => false

def isObjectCatDtype : Dtype → Bool
  | .object | .category => true
  | _ => false

def isDatetimeDtype : Dtype → Bool
  | .datetime64 => true
  | _ => false

def isBoolDtype : Dtype → Bool
  | .bool => true
  | _ => false

def columnNames (df : DataFrame) : List String := df.cols.map Column.name

def numericColumns (df : DataFrame) : List Column :=
  df.cols.filter (fun c => isNumberDtype c.dtype)

def categoricalColumns (df : DataFrame) : List Column :=
  df.cols.filter (fun c => isObjectCatDtype c.dtype)

def datetimeColumns (df : DataFrame) : List Column :=
  df.cols.filter (fun c => isDatetimeDtype c.dtype)

def booleanColumns (df : DataFrame) : List Column :=
  df.cols.filter (fun c => isBoolDtype c.dtype)

def numericColNames (df : DataFrame) : List String :=
  (numericColumns df).map Column.name

def categoricalColNames (df : DataFrame) : List String :=
  (categoricalColumns df).map Column.name

def datetimeColNames (df : DataFrame) : List String :=
  (datetimeColumns df).map Column.name

def booleanColNames (df : DataFrame) : List String :=
  (booleanColumns df).map Column.name

/-! ## Completeness analyzer (routes.py lines 202-203) -/

/-- `df[col].isnull().sum()`. -/
def missingCount (c : Column) : ℕ :=
  (c.values.filter (fun v => decide (v = Cell.null))).length

/-- `df.isnull().sum().sum()`. -/
def totalMissing (df : DataFrame) : ℕ :=
  (df.cols.map missingCount).sum

/-- One entry of `(df.isnull().sum() / len(df) * 100).round(2)`.
With `len(df) = 0` numpy evaluates 0/0, which is NaN (`none`), raising
no exception (a well-formed zero-row frame has missing count 0). -/
def missingPct (cnt n : ℕ) : Option ℚ :=
  if n = 0 then none else some (round2 ((cnt : ℚ) / (n : ℚ) * 100))

def missingPercentages (df : DataFrame) : List (String × Option ℚ) :=
  df.cols.map (fun c => (c.name, missingPct (missingCount c) df.nrows))

/-! ## Duplicate analyzer (routes.py line 206) -/

/-- Row extraction: row i is the tuple of the i-th value of every column. -/
def rowsOf (df : DataFrame) : List (List Cell) :=
  (List.range df.nrows).map (fun i => df.cols.map (fun c => c.values.getD i Cell.null))

/-- Rows equal to an earlier row, as counted by `df.duplicated().sum()`
(pandas treats NaN as equal to NaN here). -/
def dupCountAux (seen : List (List Cell)) : List (List Cell) → ℕ
  | [] => 0
  | r :: rs => (if r ∈ seen then 1 else 0) + dupCountAux (r :: seen) rs

def duplicateRowCount (df : DataFrame) : ℕ :=
  dupCountAux [] (rowsOf df)

/-! ## Numeric statistics engine (routes.py lines 213-230)

Statistics operate on the non-null values of a column; every statistic
that pandas yields as NaN is reported as `None` by the route code
(`... if not pd.isna(...) else None`), modelled as `Option`. -/

/-- The non-null numeric values of a column, in order. -/
def numericValues (c : Column) : List ℚ :=
  c.values.filterMap (fun v => match v with | Cell.num q => some q | _ => none)

/-- Mean: NaN (hence reported None) iff there are no values. -/
def meanQ (xs : List ℚ) : Option ℚ :=
  if xs.length = 0 then none else some (meanOf xs)

def minQ : List ℚ → Option ℚ
  | [] => none
  | x :: xs => some (xs.foldl min x)

def maxQ : List ℚ → Option ℚ
  | [] => none
  | x :: xs => some (xs.foldl max x)

/-- Sample standard deviation (ddof = 1) of pandas `describe`.  The
float value is sqrt of this rational; it is encoded by its square to
stay inside ℚ.  NaN (None) iff fewer than two values. -/
def stdSqQ (xs : List ℚ) : Option ℚ :=
  if xs.length ≤ 1 then none
  else some (centralMoment 2 xs / ((xs.length : ℚ) - 1))

/-- numpy linear-interpolation percentile, used by `describe` for the
25%/50%/75% rows.  NaN (None) iff there are no values. -/
def percentileQ (p : ℚ) (xs : List ℚ) : Option ℚ :=
  let s := sortQ xs
  let n := s.length
  if n = 0 then none
  else
    let h : ℚ := p * ((n : ℚ) - 1)
    let l : ℤ := ⌊h⌋
    let li := l.toNat
    let a := s.getD li 0
    let b := s.getD (li + 1) a
    some (a + (h - (l : ℚ)) * (b - a))

/-- An exact encoding of a real statistic of the form s·√t: its integer
sign and its (rational) square.  The float the code reports is
`sgn * sqrt sq`. -/
structure SignSq : Type where
  sgn : ℤ
  sq : ℚ
deriving DecidableEq

/-- `Series.skew()`: pandas nanops.nanskew.  With n non-null values,
mean-deviation sums m2 and m3: NaN if n < 3; 0 if m2 == 0 (constant
column); otherwise n·√(n-1)/(n-2) · m3/m2^1.5, encoded sign-square. -/
def pandasSkew (xs : List ℚ) : Option SignSq :=
  let n := xs.length
  if n < 3 then none
  else
    let m2 := centralMoment 2 xs
    let m3 := centralMoment 3 xs
    if m2 = 0 then some ⟨0, 0⟩
    else some ⟨sgnQ m3, ((n : ℚ) ^ 2 * ((n : ℚ) - 1) / ((n : ℚ) - 2) ^ 2) * m3 ^ 2 / m2 ^ 3⟩

/-- `Series.kurtosis()`: pandas nanops.nankurt (adjusted Fisher
kurtosis; rational, no square root).  NaN if n < 4; 0 if the
denominator (n-2)(n-3)·m2² vanishes (constant column). -/
def pandasKurt (xs : List ℚ) : Option ℚ :=
  let n := xs.length
  if n < 4 then none
  else
    let m2 := centralMoment 2 xs
    let m4 := centralMoment 4 xs
    let denom := ((n : ℚ) - 2) * ((n : ℚ) - 3) * m2 ^ 2
    if denom = 0 then some 0
    else some ((n : ℚ) * ((n : ℚ) + 1) * ((n : ℚ) - 1) * m4 / denom
               - 3 * ((n : ℚ) - 1) ^ 2 / (((n : ℚ) - 2) * ((n : ℚ) - 3)))

structure NumericStats : Type where
  count : ℕ
  mean : Option ℚ
  stdSq : Option ℚ
  min : Option ℚ
  q25 : Option ℚ
  q50 : Option ℚ
  q75 : Option ℚ
  max : Option ℚ
  skew : Option SignSq
  kurt : Option ℚ
  zeros_count : ℕ
  negative_count : ℕ
deriving DecidableEq

/-- The per-column dictionary built at routes.py lines 217-230.
`negative_count` is `(df[col] < 0).sum()` only when the column dtype is
exactly 'int64' or 'float64'; for every other (numeric) dtype the code
hardcodes 0. -/
def numericStatsOf (c : Column) : NumericStats :=
  let xs := numericValues c
  { count := xs.length
    mean := meanQ xs
    stdSq := stdSqQ xs
    min := minQ xs
    q25 := percentileQ (1/4) xs
    q50 := percentileQ (1/2) xs
    q75 := percentileQ (3/4) xs
    max := maxQ xs
    skew := pandasSkew xs
    kurt := pandasKurt xs
    zeros_count := (c.values.filter (fun v => decide (v = Cell.num 0))).length
    negative_count :=
      if c.dtype = Dtype.int64 ∨ c.dtype = Dtype.float64 then
        (xs.filter (fun q => decide (q < 0))).length
      else 0 }

def numericStats (df : DataFrame) : List (String × NumericStats) :=
  (numericColumns df).map (fun c => (c.name, numericStatsOf c))

/-! ## Categorical statistics engine (routes.py lines 233-240) -/

def nonNullCells (c : Column) : List Cell :=
  c.values.filter (fun v => decide (v ≠ Cell.null))

/-- Distinct values in first-occurrence order. -/
def dedupFirst : List Cell → List Cell
  | [] => []
  | x :: xs => x :: dedupFirst (xs.filter (fun y => decide (y ≠ x)))
termination_by l => l.length
decreasing_by
  simp only [List.length_cons]
  exact Nat.lt_succ_of_le (List.length_filter_le _ _)

def countOcc (v : Cell) (xs : List Cell) : ℕ :=
  (xs.filter (fun y => decide (y = v))).length

/-- Insertion into a count-descending list, after entries with an equal
or larger count (stable by insertion order). -/
def insertByCount (p : Cell × ℕ) : List (Cell × ℕ) → List (Cell × ℕ)
  | [] => [p]
  | q :: qs => if p.2 ≤ q.2 then q :: insertByCount p qs else p :: q :: qs

/-- `df[col].value_counts().head(10)`: non-null distinct values with
occurrence counts, sorted by count descending, truncated to 10. -/
def topValues (c : Column) : List (Cell × ℕ) :=
  let vs := nonNullCells c
  let pairs := (dedupFirst vs).map (fun v => (v, countOcc v vs))
  (pairs.foldl (fun acc p => insertByCount p acc) []).take 10

/-- The tier computed at routes.py line 239:
`"high" if unique_count > len(df) * 0.5 else "medium" if unique_count > 10 else "low"`. -/
def cardinalityTier (u n : ℕ) : String :=
  if (n : ℚ) * (1/2) < (u : ℚ) then "high"
  else if 10 < u then "medium"
  else "low"

structure CatStats : Type where
  unique_values : ℕ
  top_values : List (Cell × ℕ)
  cardinality : String
deriving DecidableEq

/-- Per-column dictionary of routes.py lines 235-240
(`nunique` counts distinct non-null values). -/
def catStatsOf (df : DataFrame) (c : Column) : CatStats :=
  let u := (dedupFirst (nonNullCells c)).length
  { unique_values := u
    top_values := topValues c
    cardinality := cardinalityTier u df.nrows }

def categoricalStats (df : DataFrame) : List (String × CatStats) :=
  (categoricalColumns df).map (fun c => (c.name, catStatsOf df c))

/-! ## Datetime statistics engine (routes.py lines 243-249) -/

def timeValues (c : Column) : List ℤ :=
  c.values.filterMap (fun v => match v with | Cell.time t => some t | _ => none)

def nsPerDay : ℤ := 86400000000000

structure DtStats : Type where
  min_date : Option ℤ
  max_date : Option ℤ
  range_days : Option ℤ
deriving DecidableEq

/-- min/max timestamps (NaT → none when no valid value) and
`(max - min).days`, i.e. the floor of the span in whole days. -/
def dtStatsOf (c : Column) : DtStats :=
  match timeValues c with
  | [] => { min_date := none, max_date := none, range_days := none }
  | t :: ts =>
    let mn := ts.foldl min t
    let mx := ts.foldl max t
    { min_date := some mn, max_date := some mx
      range_days := some (Int.fdiv (mx - mn) nsPerDay) }

def datetimeStats (df : DataFrame) : List (String × DtStats) :=
  (datetimeColumns df).map (fun c => (c.name, dtStatsOf c))

/-! ## Correlation detector (routes.py lines 252-266) -/

/-- Values of a column with nulls kept in place, for pairwise-complete
correlation. -/
def optValues (c : Column) : List (Option ℚ) :=
  c.values.map (fun v => match v with | Cell.num q => some q | _ => none)

/-- Pairwise-complete Pearson correlation of two columns, as computed
inside `df[numeric_cols].corr()`.  NaN (none) when there are no complete
observations or one column has zero variance on the complete
observations.  The real coefficient is `sgn * sqrt sq`. -/
def corrSignSq (xs ys : List (Option ℚ)) : Option SignSq :=
  let ps := (List.zip xs ys).filterMap (fun pr =>
    match pr with
    | (some a, some b) => some (a, b)
    | _ => none)
  let n := ps.length
  if n = 0 then none
  else
    let mx := (ps.map Prod.fst).sum / (n : ℚ)
    let my := (ps.map Prod.snd).sum / (n : ℚ)
    let sxx := (ps.map (fun p => (p.1 - mx) ^ 2)).sum
    let syy := (ps.map (fun p => (p.2 - my) ^ 2)).sum
    let sxy := (ps.map (fun p => (p.1 - mx) * (p.2 - my))).sum
    if sxx = 0 ∨ syy = 0 then none
    else some ⟨sgnQ sxy, sxy ^ 2 / (sxx * syy)⟩

/-- All ordered pairs (i, j) with i before j, in the nested loop order
of routes.py lines 257-258. -/
def orderedPairs {α : Type} : List α → List (α × α)
  | [] => []
  | x :: rest => (rest.map (fun y => (x, y))) ++ orderedPairs rest

structure CorrPair : Type where
  col1 : String
  col2 : String
  corr : SignSq
deriving DecidableEq

/-- Pairs with `abs(corr_val) > 0.7`, which for the sign-square encoding
is `sq > 0.49`; a NaN coefficient fails the comparison and is skipped.
(The code also rounds the reported coefficient to 3 decimals for
serialization; the embedding keeps the exact value, which no claim
inspects.) -/
def highCorrelations (df : DataFrame) : List CorrPair :=
  (orderedPairs (numericColumns df)).filterMap (fun pr =>
    match corrSignSq (optValues pr.1) (optValues pr.2) with
    | none => none
    | some v => if (49 : ℚ)/100 < v.sq then some ⟨pr.1.name, pr.2.name, v⟩ else none)

/-- The `correlations` dict of the response: the "high_correlations"
key is bound only when more than one numeric column exists; otherwise
the dict stays empty (`none` = key absent). -/
def correlations (df : DataFrame) : Option (List CorrPair) :=
  if 1 < (numericColumns df).length then some (highCorrelations df) else none

/-! ## Quality scorer (routes.py lines 269-273) -/

/-- `round((1 - missing_cells / total_cells) * 100, 2)`; with zero
cells numpy yields NaN (none). -/
def completenessScore (df : DataFrame) : Option ℚ :=
  let cells := df.nrows * df.cols.length
  if cells = 0 then none
  else some (round2 ((1 - (totalMissing df : ℚ) / (cells : ℚ)) * 100))

/-- `round((1 - duplicate_rows / len(df)) * 100, 2) if len(df) > 0 else 100`. -/
def uniquenessScore (df : DataFrame) : ℚ :=
  if 0 < df.nrows then
    round2 ((1 - (duplicateRowCount df : ℚ) / (df.nrows : ℚ)) * 100)
  else 100

/-- `round((completeness_score + uniqueness_score) / 2, 2)`; NaN
completeness propagates. -/
def overallScore (df : DataFrame) : Option ℚ :=
  (completenessScore df).map (fun c => round2 ((c + uniquenessScore df) / 2))

/-- Quality tier of routes.py line 339; every comparison against NaN is
False in Python, so a NaN score lands in "poor". -/
def qualityLevel (df : DataFrame) : String :=
  match overallScore df with
  | none => "poor"
  | some q =>
    if 90 ≤ q then "excellent"
    else if 70 ≤ q then "good"
    else if 50 ≤ q then "fair"
    else "poor"

/-! ## Profile assembler (routes.py lines 276-347) -/

def columnsWithMissing (df : DataFrame) : List String :=
  (df.cols.filter (fun c => decide (0 < missingCount c))).map Column.name

/-- `round(duplicate_rows / len(df) * 100, 2) if len(df) > 0 else 0`. -/
def duplicatePercentage (df : DataFrame) : ℚ :=
  if 0 < df.nrows then
    round2 ((duplicateRowCount df : ℚ) / (df.nrows : ℚ) * 100)
  else 0

/-- The analysis response document (memory-usage fields, which no claim
touches, are omitted). -/
structure AnalysisDoc : Type where
  dataset_id : String
  filename : String
  file_type : String
  rows : ℕ
  columns : ℕ
  total_cells : ℕ
  column_names : List String
  numeric_columns : List String
  categorical_columns : List String
  datetime_columns : List String
  boolean_columns : List String
  missing_by_column : List (String × ℕ)
  missing_percentages : List (String × Option ℚ)
  total_missing : ℕ
  columns_with_missing : List String
  duplicate_rows : ℕ
  duplicate_percentage : ℚ
  numeric_stats : List (String × NumericStats)
  categorical_stats : List (String × CatStats)
  datetime_stats : List (String × DtStats)
  correlations : Option (List CorrPair)
  completeness_score : Option ℚ
  uniqueness_score : ℚ
  overall_score : Option ℚ
  quality_level : String
  preview_head : List (List Cell)
  preview_tail : List (List Cell)
deriving DecidableEq

/-- Metadata stored in `datasets_metadata` at upload time (the fields
the analyze endpoint reads, plus basic shape info). -/
structure DatasetMeta : Type where
  filename : String
  fileType : String
  fileSize : ℕ
  rows : ℕ
  columns : ℕ
  filePath : String
deriving DecidableEq

def analysisDoc (dsId : String) (meta : DatasetMeta) (df : DataFrame) : AnalysisDoc :=
  { dataset_id := dsId
    filename := meta.filename
    file_type := meta.fileType
    rows := df.nrows
    columns := df.cols.length
    total_cells := df.nrows * df.cols.length
    column_names := columnNames df
    numeric_columns := numericColNames df
    categorical_columns := categoricalColNames df
    datetime_columns := datetimeColNames df
    boolean_columns := booleanColNames df
    missing_by_column := df.cols.map (fun c => (c.name, missingCount c))
    missing_percentages := missingPercentages df
    total_missing := totalMissing df
    columns_with_missing := columnsWithMissing df
    duplicate_rows := duplicateRowCount df
    duplicate_percentage := duplicatePercentage df
    numeric_stats := numericStats df
    categorical_stats := categoricalStats df
    datetime_stats := datetimeStats df
    correlations := correlations df
    completeness_score := completenessScore df
    uniqueness_score := uniquenessScore df
    overall_score := overallScore df
    quality_level := qualityLevel df
    preview_head := (rowsOf df).take 5
    preview_tail := (rowsOf df).drop (df.nrows - 5) }

/-! ## Server model: upload and analyze endpoints

State is the module-level `datasets_metadata` dict plus the temp
directory contents.  A stored file is represented by what parsing it
yields (parsing is a pure function of the bytes on disk, which only the
upload endpoint writes). -/

/-- Outcome of `pd.read_csv` / `read_excel` / `read_json` /
`read_parquet` on a given payload. -/
inductive ParseOutcome : Type
  | ok : DataFrame → ParseOutcome
  | emptyDataError : String → ParseOutcome
  | parserError : String → ParseOutcome
  | valueError : String → ParseOutcome
  | otherError : String → ParseOutcome
deriving DecidableEq

structure ServerState : Type where
  registry : List (String × DatasetMeta)
  files : List (String × ParseOutcome)
deriving DecidableEq

inductive HttpResult (α : Type) : Type
  | ok : α → HttpResult α
  | error : ℕ → String → HttpResult α
deriving DecidableEq

def HttpResult.statusCode {α : Type} : HttpResult α → Option ℕ
  | .ok _ => none
  | .error st _ => some st

def HttpResult.isError {α : Type} : HttpResult α → Bool
  | .ok _ => false
  | .error _ _ => true

def lookupReg (reg : List (String × DatasetMeta)) (dsId : String) : Option DatasetMeta :=
  (reg.find? (fun pr => pr.1 == dsId)).map Prod.snd

def lookupRegistry (s : ServerState) (dsId : String) : Option DatasetMeta :=
  lookupReg s.registry dsId

def lookupFile (s : ServerState) (path : String) : Option ParseOutcome :=
  (s.files.find? (fun pr => pr.1 == path)).map Prod.snd

/-- `pathlib.PurePath.suffix`: the last dot-suffix of the name, empty
when there is no dot, the only dot is leading, or the dot is final. -/
def pySuffix (name : String) : String :=
  let cs := name.toList
  let n := cs.length
  let dotIdxs := (List.range n).filter (fun i => decide (cs.getD i ' ' = '.'))
  match dotIdxs.getLast? with
  | none => ""
  | some i => if 0 < i ∧ i < n - 1 then String.mk (cs.drop i) else ""

def lowerAscii (s : String) : String := String.mk (s.toList.map Char.toLower)

/-- `file_ext.replace('.', '').upper()`. -/
def stripDotUpper (s : String) : String :=
  String.mk ((s.toList.filter (fun ch => decide (ch ≠ '.'))).map Char.toUpper)

def SUPPORTED_EXTENSIONS : List String := [".csv", ".xlsx", ".xls", ".json", ".parquet"]

def MAX_UPLOAD_SIZE : ℕ := 100 * 1024 * 1024

def TEMP_DIR : String := "./temp"

/-- An upload request: the (possibly missing) client filename, the
payload size, and what pandas parsing of the payload yields. -/
structure UploadRequest : Type where
  filename : Option String
  size : ℕ
  parse : ParseOutcome
deriving DecidableEq

/-- The upload endpoint (routes.py lines 29-161), with Python exception
semantics made explicit.  Key control-flow fact: every
`raise HTTPException` that occurs after the temp file is written sits
inside the outer `try:` of line 61, and `fastapi.HTTPException` is an
`Exception` subclass, so the outer handler at line 157 re-wraps each of
those (including the ParserError 400 of line 134, and the inner 500 of
line 152 that the empty-dataframe 400 of line 84 has already been
re-wrapped into by the inner generic handler at line 148) as a final
HTTP 500 "Error saving file: ..." — `str(HTTPException)` being
"{status}: {detail}".  The per-branch cleanup (`os.remove`) runs before
the re-raise, so the temp file is removed on every post-write failure. -/
def upload (s : ServerState) (req : UploadRequest) (dsId : String) :
    HttpResult DatasetMeta × ServerState :=
  if req.filename.getD "" = "" then
    (.error 400 "No filename provided", s)
  else
    let ext := lowerAscii (pySuffix (req.filename.getD ""))
    if ext ∉ SUPPORTED_EXTENSIONS then
      (.error 400 "Unsupported file type", s)
    else if MAX_UPLOAD_SIZE < req.size then
      (.error 413 "File too large. Maximum size is 100MB", s)
    else if req.size = 0 then
      (.error 400 "Empty file uploaded", s)
    else
      let path := TEMP_DIR ++ "/" ++ dsId ++ ext
      let written : ServerState := { s with files := (path, req.parse) :: s.files }
      let cleaned : ServerState :=
        { written with files := written.files.filter (fun pr => decide (pr.1 ≠ path)) }
      match req.parse with
      | .ok df =>
          if df.nrows = 0 ∨ df.cols.length = 0 then
            (.error 500 "Error saving file: 500: Error processing file: 400: File contains no data",
             cleaned)
          else
            let meta : DatasetMeta :=
              { filename := req.filename.getD ""
                fileType := stripDotUpper ext
                fileSize := req.size
                rows := df.nrows
                columns := df.cols.length
                filePath := path }
            (.ok meta, { written with registry := (dsId, meta) :: written.registry })
      | .emptyDataError _ =>
          (.error 500 "Error saving file: 400: File is empty or invalid", cleaned)
      | .parserError m =>
          (.error 500 ("Error saving file: 400: Failed to parse file: " ++ m), cleaned)
      | .valueError m =>
          (.error 500 ("Error saving file: 400: Invalid file format: " ++ m), cleaned)
      | .otherError m =>
          (.error 500 ("Error saving file: 500: Error processing file: " ++ m), cleaned)

/-- Pure result of the analyze endpoint (routes.py lines 165-359): 404
when the id is unknown or the backing file is gone; re-reading the
stored file and profiling it on success; any read exception is caught
at line 355 and surfaced as a 500. -/
def analyzeResult (s : ServerState) (dsId : String) : HttpResult AnalysisDoc :=
  match lookupRegistry s dsId with
  | none => .error 404 "Dataset not found"
  | some meta =>
    match lookupFile s meta.filePath with
    | none => .error 404 "Dataset file not found"
    | some (.ok df) => .ok (analysisDoc dsId meta df)
    | some (.emptyDataError m) => .error 500 ("Error analyzing dataset: " ++ m)
    | some (.parserError m) => .error 500 ("Error analyzing dataset: " ++ m)
    | some (.valueError m) => .error 500 ("Error analyzing dataset: " ++ m)
    | some (.otherError m) => .error 500 ("Error analyzing dataset: " ++ m)

/-- The analyze endpoint mutates no server state: it only reads the
registry and the stored file. -/
def analyze (s : ServerState) (dsId : String) : HttpResult AnalysisDoc × ServerState :=
  (analyzeResult s dsId, s)

/-! ## Spec-side definitions

These follow the wording of the specification, to be compared with the
definitions embedded from the code. -/

/-- Spec 4.4: "count of negative values" — the number of values in the
column strictly less than zero. -/
def specNegCount (c : Column) : ℕ :=
  ((numericValues c).filter (fun q => decide (q < 0))).length

/-- Spec 4.5 wording: high if unique > 0.5·rows, otherwise low if
unique ≤ 10, otherwise medium. -/
def specCardinalityTier (u n : ℕ) : String :=
  if (n : ℚ) * (1/2) < (u : ℚ) then "high"
  else if u ≤ 10 then "low"
  else "medium"

/-- Spec 4.8: completeness score (reported rounded to 2 decimals). -/
def specCompletenessScore (df : DataFrame) : ℚ :=
  round2 ((1 - (totalMissing df : ℚ) / ((df.nrows * df.cols.length : ℕ) : ℚ)) * 100)

/-- Spec 4.8: uniqueness score, 100 when there are no rows. -/
def specUniquenessScore (df : DataFrame) : ℚ :=
  if df.nrows = 0 then 100
  else round2 ((1 - (duplicateRowCount df : ℚ) / (df.nrows : ℚ)) * 100)

/-- Spec 4.8: overall score = average of the two, rounded to 2 decimals. -/
def specOverallScore (df : DataFrame) : ℚ :=
  round2 ((specCompletenessScore df + specUniquenessScore df) / 2)

/-! ## Concrete frames for counterexamples and witnesses -/

/-- A frame with a single numeric column (so fewer than 2). -/
def dfOneNumeric : DataFrame :=
  ⟨[⟨"x", Dtype.int64, [Cell.num 1, Cell.num 2]⟩], 2⟩

/-- A zero-row frame with one float column. -/
def dfZeroRows : DataFrame := ⟨[⟨"a", Dtype.float64, []⟩], 0⟩

/-- An int32 column holding a negative value (int32 reaches the numeric
bucket, e.g. from a parquet upload, but is not 'int64'/'float64'). -/
def colInt32Neg : Column := ⟨"v", Dtype.int32, [Cell.num (-1)]⟩

def dfInt32Neg : DataFrame := ⟨[colInt32Neg], 1⟩

/-- A frame whose only column is timedelta64: matched by none of the
four `select_dtypes` calls. -/
def dfTimedelta : DataFrame := ⟨[⟨"d", Dtype.timedelta64, [Cell.time 0]⟩], 1⟩

/-- Columns exercising degenerate statistics. -/
def colAllNull : Column := ⟨"e", Dtype.float64, [Cell.null]⟩

def colSingle : Column := ⟨"s", Dtype.float64, [Cell.num 7]⟩

def colTwo : Column := ⟨"t", Dtype.float64, [Cell.num 1, Cell.num 2]⟩

def colThree : Column := ⟨"u", Dtype.float64, [Cell.num 1, Cell.num 2, Cell.num 4]⟩

def colConst3 : Column := ⟨"k3", Dtype.int64, [Cell.num 5, Cell.num 5, Cell.num 5]⟩

def colConst4 : Column := ⟨"k4", Dtype.int64, [Cell.num 5, Cell.num 5, Cell.num 5, Cell.num 5]⟩

/-- The partition property the claim asserts of the type classifier,
restricted to what the code guarantees: the four name lists are
pairwise disjoint (given distinct column names), each preserves column
order (is a sublist of the column-name list), and every column of a
recognized dtype appears in its bucket. -/
def TypePartition (df : DataFrame) : Prop :=
  (List.Disjoint (numericColNames df) (categoricalColNames df) ∧
   List.Disjoint (numericColNames df) (datetimeColNames df) ∧
   List.Disjoint (numericColNames df) (booleanColNames df) ∧
   List.Disjoint (categoricalColNames df) (datetimeColNames df) ∧
   List.Disjoint (categoricalColNames df) (booleanColNames df) ∧
   List.Disjoint (datetimeColNames df) (booleanColNames df)) ∧
  ((numericColNames df).Sublist (columnNames df) ∧
   (categoricalColNames df).Sublist (columnNames df) ∧
   (datetimeColNames df).Sublist (columnNames df) ∧
   (booleanColNames df).Sublist (columnNames df)) ∧
  (∀ c ∈ df.cols,
    (isNumberDtype c.dtype = true → c.name ∈ numericColNames df) ∧
    (isObjectCatDtype c.dtype = true → c.name ∈ categoricalColNames df) ∧
    (isDatetimeDtype c.dtype = true → c.name ∈ datetimeColNames df) ∧
    (isBoolDtype c.dtype = true → c.name ∈ booleanColNames df))

/-- A frame with one column of each recognized kind. -/
def dfMixed : DataFrame :=
  ⟨[⟨"n", Dtype.int64, [Cell.num 1]⟩,
    ⟨"c", Dtype.object, [Cell.str "a"]⟩,
    ⟨"t", Dtype.datetime64, [Cell.time 0]⟩,
    ⟨"b", Dtype.bool, [Cell.boolean true]⟩], 1⟩

/-- The worked example of spec section 8: age [25, 30, null, 25],
city [NY, LA, NY, NY]. -/
def dfQuality : DataFrame :=
  ⟨[⟨"age", Dtype.float64, [Cell.num 25, Cell.num 30, Cell.null, Cell.num 25]⟩,
    ⟨"city", Dtype.object, [Cell.str "NY", Cell.str "LA", Cell.str "NY", Cell.str "NY"]⟩], 4⟩

def colCity : Column := ⟨"city", Dtype.object, [Cell.str "NY", Cell.str "LA", Cell.str "NY"]⟩

def dfCity : DataFrame := ⟨[colCity], 3⟩

/-- Server states and requests for endpoint-level claims. -/
def emptyState : ServerState := ⟨[], []⟩

/-- A csv upload whose payload pandas cannot tokenize. -/
def reqParserError : UploadRequest :=
  ⟨some "data.csv", 20, .parserError "Error tokenizing data"⟩

/-- A zero-byte csv upload. -/
def reqEmptyFile : UploadRequest :=
  ⟨some "t.csv", 0, .emptyDataError "No columns to parse from file"⟩

/-! ## C2: correlations with fewer than 2 numeric columns -/

/-- C2 counterexample: with a single numeric column the `correlations`
dict stays empty — the pair list is absent (`none`), not an empty list
(`some []`) as the claim states. -/
theorem correlations_lt2_cex :
    correlations dfOneNumeric = none ∧ correlations dfOneNumeric ≠ some [] := by
  decide

/-- C2 (amended): for every dataset with fewer than 2 numeric columns
the analyze response emits no correlation pairs and no error, but the
correlations mapping is empty — the pair-list key is absent rather than
bound to an empty list. -/
theorem correlations_absent_lt2 (df : DataFrame)
    (h : (numericColumns df).length < 2) : correlations df = none := by
  unfold correlations
  rw [if_neg (by omega)]

theorem correlations_absent_lt2_w :
    (numericColumns dfOneNumeric).length < 2 ∧ correlations dfOneNumeric = none :=
  ⟨by decide, correlations_absent_lt2 dfOneNumeric (by decide)⟩

/-! ## C3: missing percentages on a zero-row frame -/

/-- C3 counterexample: on a zero-row dataset the per-column missing
percentage is NaN (pandas evaluates 0/0), not the 0% the claim states. -/
theorem missing_pct_zero_rows_cex :
    missingPercentages dfZeroRows = [("a", none)] ∧
    missingPercentages dfZeroRows ≠ [("a", some 0)] := by
  decide

/-- C3 (amended): on a zero-row dataset the Completeness Analyzer
reports NaN (an absent value, from numpy 0/0) as every column's
missing percentage; no exception is raised, but the result is not 0%. -/
theorem missing_pct_zero_rows_nan (df : DataFrame) (h : df.nrows = 0) :
    ∀ p ∈ missingPercentages df, p.2 = none := by
  intro p hp
  unfold missingPercentages at hp
  obtain ⟨c, _, rfl⟩ := List.mem_map.mp hp
  simp [missingPct, h]

theorem missing_pct_zero_rows_nan_w :
    dfZeroRows.nrows = 0 ∧ ∀ p ∈ missingPercentages dfZeroRows, p.2 = none :=
  ⟨by decide, missing_pct_zero_rows_nan dfZeroRows (by decide)⟩

/-! ## C4: negative_count -/

/-- C4 counterexample: an int32 numeric column holding -1 is profiled
(int32 is a numeric dtype) yet its reported negative_count is 0, while
one value is strictly negative. -/
theorem negative_count_int32_cex :
    isNumberDtype colInt32Neg.dtype = true ∧
    numericStats dfInt32Neg = [("v", numericStatsOf colInt32Neg)] ∧
    (numericStatsOf colInt32Neg).negative_count = 0 ∧
    specNegCount colInt32Neg = 1 :=
  ⟨rfl, rfl, rfl, rfl⟩

/-- C4 (amended): the reported negative_count equals the number of
values strictly below zero for columns of dtype int64 or float64; for
every other numeric dtype the code hardcodes 0 regardless of the data. -/
theorem negative_count_i64_f64 (c : Column)
    (h : c.dtype = Dtype.int64 ∨ c.dtype = Dtype.float64) :
    (numericStatsOf c).negative_count = specNegCount c := by
  unfold numericStatsOf specNegCount
  simp only [if_pos h]

theorem negative_count_i64_f64_w :
    (colConst3.dtype = Dtype.int64 ∨ colConst3.dtype = Dtype.float64) ∧
    (numericStatsOf colConst3).negative_count = specNegCount colConst3 :=
  ⟨by decide, negative_count_i64_f64 colConst3 (by decide)⟩

/-! ## C6: undefined statistics -/

/-- C6 counterexample: the skewness of a constant column with three
values is mathematically undefined (the central second moment is zero),
yet pandas returns 0 there and the route reports the numeric value 0.0
(sign 0, square 0) instead of null. -/
theorem skew_const_col_cex :
    (numericStatsOf colConst3).skew = some ⟨0, 0⟩ ∧
    (numericStatsOf colConst3).skew ≠ none ∧
    centralMoment 2 (numericValues colConst3) = 0 := by
  have hv : numericValues colConst3 = [5, 5, 5] := rfl
  have h : centralMoment 2 (numericValues colConst3) = 0 := by
    rw [hv]; norm_num [centralMoment, meanOf]
  have hs : (numericStatsOf colConst3).skew = some ⟨0, 0⟩ := by
    show pandasSkew (numericValues colConst3) = some ⟨0, 0⟩
    rw [hv]
    rw [hv] at h
    simp [pandasSkew, h]
  exact ⟨hs, by rw [hs]; simp, h⟩

/-- C6 (amended): statistics that pandas yields as NaN are reported as
null — mean/min/max/median of an empty column, std of fewer than two
values, skewness of fewer than three, kurtosis of fewer than four; but
the skewness (resp. kurtosis) of a constant column with at least 3
(resp. 4) values is reported as the numeric value 0, indistinguishable
from a computed zero, not as null. -/
theorem undefined_stats_reporting (c : Column) :
    ((numericValues c).length = 0 →
      (numericStatsOf c).mean = none ∧ (numericStatsOf c).min = none ∧
      (numericStatsOf c).max = none ∧ (numericStatsOf c).q50 = none) ∧
    ((numericValues c).length ≤ 1 → (numericStatsOf c).stdSq = none) ∧
    ((numericValues c).length < 3 → (numericStatsOf c).skew = none) ∧
    ((numericValues c).length < 4 → (numericStatsOf c).kurt = none) ∧
    (3 ≤ (numericValues c).length → centralMoment 2 (numericValues c) = 0 →
      (numericStatsOf c).skew = some ⟨0, 0⟩) ∧
    (4 ≤ (numericValues c).length → centralMoment 2 (numericValues c) = 0 →
      (numericStatsOf c).kurt = some 0) := by
  refine ⟨?_, ?_, ?_, ?_, ?_, ?_⟩
  · intro h
    have hx : numericValues c = [] := List.length_eq_zero.mp h
    refine ⟨?_, ?_, ?_, ?_⟩ <;>
      simp [numericStatsOf, meanQ, minQ, maxQ, percentileQ, sortQ, hx]
  · intro h
    simp [numericStatsOf, stdSqQ, h]
  · intro h
    simp [numericStatsOf, pandasSkew, h]
  · intro h
    simp [numericStatsOf, pandasKurt, h]
  · intro h hm2
    have h3 : ¬ ((numericValues c).length < 3) := by omega
    simp [numericStatsOf, pandasSkew, h3, hm2]
  · intro h hm2
    have h4 : ¬ ((numericValues c).length < 4) := by omega
    simp [numericStatsOf, pandasKurt, h4, hm2]

theorem undefined_stats_reporting_w :
    (numericStatsOf colAllNull).mean = none ∧
    (numericStatsOf colSingle).stdSq = none ∧
    (numericStatsOf colTwo).skew = none ∧
    (numericStatsOf colThree).kurt = none ∧
    (numericStatsOf colConst3).skew = some ⟨0, 0⟩ ∧
    (numericStatsOf colConst4).kurt = some 0 :=
  ⟨((undefined_stats_reporting colAllNull).1 (by decide)).1,
   (undefined_stats_reporting colSingle).2.1 (by decide),
   (undefined_stats_reporting colTwo).2.2.1 (by decide),
   (undefined_stats_reporting colThree).2.2.2.1 (by decide),
   (undefined_stats_reporting colConst3).2.2.2.2.1 (by decide)
     (by norm_num [show numericValues colConst3 = [5, 5, 5] from rfl,
                   centralMoment, meanOf]),
   (undefined_stats_reporting colConst4).2.2.2.2.2 (by decide)
     (by norm_num [show numericValues colConst4 = [5, 5, 5, 5] from rfl,
                   centralMoment, meanOf])⟩

/-! ## C5: type classifier partition -/

/-- Columns selected by mutually exclusive predicates have disjoint
name lists, provided column names are distinct. -/
theorem filter_names_disjoint (cols : List Column) (p q : Column → Bool)
    (hpq : ∀ c : Column, ¬(p c = true ∧ q c = true))
    (h : (cols.map Column.name).Nodup) :
    List.Disjoint ((cols.filter p).map Column.name)
      ((cols.filter q).map Column.name) := by
  intro x hx hy
  obtain ⟨c1, hc1, he1⟩ := List.mem_map.mp hx
  obtain ⟨c2, hc2, he2⟩ := List.mem_map.mp hy
  rw [List.mem_filter] at hc1 hc2
  have hcc : c1 = c2 :=
    List.inj_on_of_nodup_map h hc1.1 hc2.1 (he1.trans he2.symm)
  refine hpq c1 ⟨hc1.2, ?_⟩
  rw [hcc]
  exact hc2.2

/-- C5 counterexample: a timedelta64 column (e.g. a parquet duration
column) is selected by none of the four `select_dtypes` calls: it lands
in no list — in particular not in the categorical list — so the four
lists do not cover every column. -/
theorem dtype_partition_cex :
    columnNames dfTimedelta = ["d"] ∧
    numericColNames dfTimedelta = [] ∧
    categoricalColNames dfTimedelta = [] ∧
    datetimeColNames dfTimedelta = [] ∧
    booleanColNames dfTimedelta = [] := by
  decide

/-- C5 (amended): for a dataset with distinct column names, the four
lists are pairwise disjoint and order-preserving, and every column of
a recognized dtype (numeric, object/category, datetime64, bool) lands
in exactly its own list; but columns of unrecognized dtypes (e.g.
timedelta64 or timezone-aware datetimes) appear in no list at all
rather than defaulting to categorical, so the lists need not cover all
columns. -/
theorem dtype_partition (df : DataFrame) (h : (columnNames df).Nodup) :
    TypePartition df := by
  have hd : ∀ (p q : Column → Bool), (∀ c : Column, ¬(p c = true ∧ q c = true)) →
      List.Disjoint ((df.cols.filter p).map Column.name)
        ((df.cols.filter q).map Column.name) :=
    fun p q hpq => filter_names_disjoint df.cols p q hpq h
  refine ⟨⟨?_, ?_, ?_, ?_, ?_, ?_⟩, ⟨?_, ?_, ?_, ?_⟩, ?_⟩
  · exact hd _ _ (fun c => by cases c.dtype <;> simp [isNumberDtype, isObjectCatDtype])
  · exact hd _ _ (fun c => by cases c.dtype <;> simp [isNumberDtype, isDatetimeDtype])
  · exact hd _ _ (fun c => by cases c.dtype <;> simp [isNumberDtype, isBoolDtype])
  · exact hd _ _ (fun c => by cases c.dtype <;> simp [isObjectCatDtype, isDatetimeDtype])
  · exact hd _ _ (fun c => by cases c.dtype <;> simp [isObjectCatDtype, isBoolDtype])
  · exact hd _ _ (fun c => by cases c.dtype <;> simp [isDatetimeDtype, isBoolDtype])
  · exact List.Sublist.map _ (List.filter_sublist _)
  · exact List.Sublist.map _ (List.filter_sublist _)
  · exact List.Sublist.map _ (List.filter_sublist _)
  · exact List.Sublist.map _ (List.filter_sublist _)
  · intro c hc
    refine ⟨fun hp => ?_, fun hp => ?_, fun hp => ?_, fun hp => ?_⟩ <;>
      exact List.mem_map_of_mem _ (List.mem_filter.mpr ⟨hc, hp⟩)

theorem dtype_partition_w :
    (columnNames dfMixed).Nodup ∧ TypePartition dfMixed :=
  ⟨by decide, dtype_partition dfMixed (by decide)⟩

/-! ## C7: quality score -/

/-- C7: for every analyzed dataset (any dataset passing upload has at
least one row and one column), the reported completeness and uniqueness
scores follow the spec formulas (rounded to 2 decimals) and the overall
score is their average rounded to 2 decimals. -/
theorem quality_score_formula (df : DataFrame) (hr : 0 < df.nrows)
    (hc : 0 < df.cols.length) :
    completenessScore df = some (specCompletenessScore df) ∧
    uniquenessScore df = specUniquenessScore df ∧
    overallScore df = some (specOverallScore df) := by
  have hcells : df.nrows * df.cols.length ≠ 0 :=
    Nat.mul_ne_zero (by omega) (by omega)
  have h1 : completenessScore df = some (specCompletenessScore df) := by
    unfold completenessScore specCompletenessScore
    rw [if_neg hcells]
  have h2 : uniquenessScore df = specUniquenessScore df := by
    unfold uniquenessScore specUniquenessScore
    rw [if_pos hr, if_neg (by omega)]
  refine ⟨h1, h2, ?_⟩
  unfold overallScore specOverallScore
  rw [h1]
  simp only [Option.map_some']
  rw [h2]

theorem quality_score_formula_w :
    0 < dfQuality.nrows ∧ 0 < dfQuality.cols.length ∧
    (completenessScore dfQuality = some (specCompletenessScore dfQuality) ∧
     uniquenessScore dfQuality = specUniquenessScore dfQuality ∧
     overallScore dfQuality = some (specOverallScore dfQuality)) :=
  ⟨by decide, by decide, quality_score_formula dfQuality (by decide) (by decide)⟩

/-! ## C8: cardinality tier -/

/-- The chained conditional of routes.py line 239 agrees with the spec
wording for all unique counts and row counts. -/
theorem cardinalityTier_eq_spec (u n : ℕ) :
    cardinalityTier u n = specCardinalityTier u n := by
  unfold cardinalityTier specCardinalityTier
  by_cases h1 : (n : ℚ) * (1/2) < (u : ℚ)
  · rw [if_pos h1, if_pos h1]
  · rw [if_neg h1, if_neg h1]
    by_cases h2 : 10 < u
    · rw [if_pos h2, if_neg (by omega)]
    · rw [if_neg h2, if_pos (by omega)]

/-- C8: every categorical column's reported tier is "high" when
unique > 0.5·rows, otherwise "low" when unique ≤ 10, otherwise
"medium". -/
theorem cardinality_tier_spec (df : DataFrame) (nm : String) (st : CatStats)
    (h : (nm, st) ∈ categoricalStats df) :
    st.cardinality = specCardinalityTier st.unique_values df.nrows := by
  unfold categoricalStats at h
  obtain ⟨c, _, he⟩ := List.mem_map.mp h
  have h2 : st = catStatsOf df c := by
    have := congrArg Prod.snd he
    simpa using this.symm
  rw [h2]
  exact cardinalityTier_eq_spec _ _

theorem cardinality_tier_spec_w :
    ("city", catStatsOf dfCity colCity) ∈ categoricalStats dfCity ∧
    (catStatsOf dfCity colCity).cardinality =
      specCardinalityTier (catStatsOf dfCity colCity).unique_values dfCity.nrows :=
  ⟨List.mem_cons_self _ _,
   cardinality_tier_spec dfCity "city" (catStatsOf dfCity colCity)
     (List.mem_cons_self _ _)⟩

/-! ## C9: analysis is deterministic and idempotent -/

/-- C9: the analyze endpoint mutates no server state (registry or
stored files), and running it a second time on the resulting state
returns the identical response: the profile is a pure function of the
stored data. -/
theorem analyze_idempotent (s : ServerState) (dsId : String) :
    (analyze s dsId).2 = s ∧
    analyze ((analyze s dsId).2) dsId = analyze s dsId :=
  ⟨rfl, rfl⟩

/-! ## C10: failed uploads do not touch the registry -/

theorem analyzeResult_404 (s' : ServerState) (dsId : String)
    (h : lookupReg s'.registry dsId = none) :
    analyzeResult s' dsId = .error 404 "Dataset not found" := by
  unfold analyzeResult lookupRegistry
  rw [h]

/-- C10: every failed upload (missing filename, bad extension,
oversized, empty, parse failure, or any processing error) leaves the
metadata registry unchanged, so analyzing with the generated (fresh)
dataset id answers 404 Dataset not found. -/
theorem upload_failure_registry_unchanged (s : ServerState)
    (req : UploadRequest) (dsId : String)
    (hfail : (upload s req dsId).1.isError = true)
    (hfresh : lookupRegistry s dsId = none) :
    (upload s req dsId).2.registry = s.registry ∧
    (analyze ((upload s req dsId).2) dsId).1 = .error 404 "Dataset not found" := by
  have hreg : (upload s req dsId).2.registry = s.registry := by
    rcases req with ⟨fn, sz, pr⟩
    cases pr <;> simp only [upload] at hfail ⊢ <;>
      split_ifs at hfail ⊢ <;>
      first
      | rfl
      | simp [HttpResult.isError] at hfail
  refine ⟨hreg, ?_⟩
  show analyzeResult ((upload s req dsId).2) dsId = .error 404 "Dataset not found"
  apply analyzeResult_404
  rw [hreg]
  exact hfresh

theorem upload_failure_registry_unchanged_w :
    (upload emptyState reqEmptyFile "fresh").1.isError = true ∧
    lookupRegistry emptyState "fresh" = none ∧
    ((upload emptyState reqEmptyFile "fresh").2.registry = emptyState.registry ∧
     (analyze ((upload emptyState reqEmptyFile "fresh").2) "fresh").1 =
       .error 404 "Dataset not found") :=
  ⟨by decide, by decide,
   upload_failure_registry_unchanged emptyState reqEmptyFile "fresh"
     (by decide) (by decide)⟩

/-! ## C1: parse failure during upload -/

/-- C1: on an upload with a supported extension whose payload raises a
pandas ParserError, the code removes the partially written temp file
(the cleanup of lines 131-133 runs) but the response status is 500, not
the intended 400: the HTTPException(400) of line 134 is swallowed by
the outer `except Exception` of line 157 and re-wrapped as
500 "Error saving file: ...". -/
theorem upload_parser_error_eval :
    (upload emptyState reqParserError "d1").1.statusCode = some 500 ∧
    (upload emptyState reqParserError "d1").1.statusCode ≠ some 400 ∧
    (upload emptyState reqParserError "d1").2.files = [] ∧
    (upload emptyState reqParserError "d1").2.registry = [] := by
  decide

end Flownix
